import Mathlib

/-!
Shallow embedding of `src/main.js` (koustavx08/virtual-room): a three.js
scene with a room shell, a rotating cube, a pedestal, a hovering accent
sphere and four lights, plus a per-frame update loop (`animate`) and a
window-resize handler.  Numeric values are modelled over the real
numbers; the external graphics library (three.js) is out of scope except
for the state it stores on behalf of this program (object transforms,
camera parameters, renderer output size).
-/

/-- A 3-component vector, as used by three.js for positions and Euler
rotations. -/
structure Vec3 where
  x : ℝ
  y : ℝ
  z : ℝ


/-- Geometry constructed by the scene builder. -/
inductive Geometry where
  | plane (width height : ℝ)
  | box (width height depth : ℝ)
  | cylinder (radiusTop radiusBottom height : ℝ) (radialSegments : ℕ)
  | sphere (radius : ℝ) (widthSegments heightSegments : ℕ)


/-- The `MeshStandardMaterial` parameters the source sets (defaults from
three.js where the source leaves them unset: roughness 1, metalness 0,
emissive black, emissiveIntensity 1, envMapIntensity 1). -/
structure StandardMaterial where
  color : ℕ
  roughness : ℝ := 1
  metalness : ℝ := 0
  emissive : ℕ := 0x000000
  emissiveIntensity : ℝ := 1
  envMapIntensity : ℝ := 1


/-- A mesh node: geometry, material and local transform.  Unset
positions/rotations default to 0 as in three.js. -/
structure MeshNode where
  geometry : Geometry
  material : StandardMaterial
  position : Vec3 := ⟨0, 0, 0⟩
  rotation : Vec3 := ⟨0, 0, 0⟩
  castShadow : Bool := false
  receiveShadow : Bool := false


/-- `THREE.AmbientLight` (no position). -/
structure AmbientLightNode where
  color : ℕ
  intensity : ℝ


/-- `THREE.DirectionalLight` with the fields the source touches. -/
structure DirectionalLightNode where
  color : ℕ
  intensity : ℝ
  position : Vec3 := ⟨0, 0, 0⟩
  castShadow : Bool := false


/-- `THREE.PointLight` with the fields the source touches. -/
structure PointLightNode where
  color : ℕ
  intensity : ℝ
  distance : ℝ := 0
  position : Vec3 := ⟨0, 0, 0⟩
  castShadow : Bool := false


/-- `THREE.Fog` parameters. -/
structure FogParams where
  color : ℕ
  near : ℝ
  far : ℝ


/-- The repository-owned mutable scene state: the time accumulator
(`let time = 0`) and every scene-graph node created at startup, one
field per top-level `const` in the source. -/
structure SceneState where
  time : ℝ
  background : ℕ
  fog : FogParams
  ambientLight : AmbientLightNode
  mainLight : DirectionalLightNode
  accentLight : PointLightNode
  rimLight : PointLightNode
  floor : MeshNode
  backWall : MeshNode
  leftWall : MeshNode
  rightWall : MeshNode
  ceiling : MeshNode
  cube : MeshNode
  pedestal : MeshNode
  accentSphere : MeshNode

/-- The host window dimensions read by the startup code and the resize
handler. -/
structure Window where
  innerWidth : ℝ
  innerHeight : ℝ

/-- The scene builder (source lines 84–316, scene-graph part): every
node with the exact literals of the source.  It reads nothing from the
host window. -/
noncomputable def buildScene (_w : Window) : SceneState where
  time := 0
  background := 0x1a1d28
  fog := ⟨0x1a1d28, 10, 35⟩
  ambientLight := ⟨0xb8c5d6, 0.4⟩
  mainLight := { color := 0xffffff, intensity := 2.5, position := ⟨8, 12, 6⟩, castShadow := true }
  accentLight := { color := 0xffa366, intensity := 1.5, distance := 15, position := ⟨-4, 3, -6⟩, castShadow := true }
  rimLight := { color := 0x6694cc, intensity := 1, distance := 18, position := ⟨6, 2, 8⟩ }
  floor := { geometry := .plane 24 24,
             material := { color := 0x2d3142, roughness := 0.9, metalness := 0.1 },
             rotation := ⟨-(Real.pi / 2), 0, 0⟩,
             receiveShadow := true }
  backWall := { geometry := .plane 24 12,
                material := { color := 0x383d52, roughness := 0.85, metalness := 0.05 },
                position := ⟨0, 6, -12⟩,
                receiveShadow := true }
  leftWall := { geometry := .plane 24 12,
                material := { color := 0x343849, roughness := 0.85, metalness := 0.05 },
                position := ⟨-12, 6, 0⟩,
                rotation := ⟨0, Real.pi / 2, 0⟩,
                receiveShadow := true }
  rightWall := { geometry := .plane 24 12,
                 material := { color := 0x3a3f56, roughness := 0.85, metalness := 0.05 },
                 position := ⟨12, 6, 0⟩,
                 rotation := ⟨0, -(Real.pi / 2), 0⟩,
                 receiveShadow := true }
  ceiling := { geometry := .plane 24 24,
               material := { color := 0x1f2332, roughness := 0.9, metalness := 0.05 },
               position := ⟨0, 12, 0⟩,
               rotation := ⟨Real.pi / 2, 0, 0⟩,
               receiveShadow := true }
  cube := { geometry := .box 2.2 2.2 2.2,
            material := { color := 0x5d7fa3, roughness := 0.3, metalness := 0.6, envMapIntensity := 0.8 },
            position := ⟨0, 1.1, 0⟩,
            castShadow := true,
            receiveShadow := true }
  pedestal := { geometry := .cylinder 1.8 2 0.3 32,
                material := { color := 0x4a5166, roughness := 0.7, metalness := 0.3 },
                position := ⟨0, 0.15, 0⟩,
                castShadow := true,
                receiveShadow := true }
  accentSphere := { geometry := .sphere 0.4 32 32,
                    material := { color := 0xf4a261, roughness := 0.2, metalness := 0.8,
                                  emissive := 0xf4a261, emissiveIntensity := 0.1 },
                    position := ⟨-5, 0.4, -4⟩,
                    castShadow := true }
/-- The frame updater (source lines 322–338, repository-owned part):
`time += 0.005`, `cube.rotation.y = time * 0.3`,
`cube.rotation.x = Math.sin(time * 0.5) * 0.05`,
`accentSphere.position.y = 0.4 + Math.sin(time * 2) * 0.1`.  The
delegated `controls.update()` and `renderer.render()` calls belong to
the external library and touch no scene-graph node. -/
noncomputable def animate (s : SceneState) : SceneState :=
  let time := s.time + 0.005
  { s with
    time := time
    cube := { s.cube with
      rotation := { s.cube.rotation with
        y := time * 0.3
        x := Real.sin (time * 0.5) * 0.05 } }
    accentSphere := { s.accentSphere with
      position := { s.accentSphere.position with
        y := 0.4 + Real.sin (time * 2) * 0.1 } } }

/-- The scene state after `n` invocations of the frame updater, starting
from the freshly built scene. -/
noncomputable def frames (w : Window) (n : ℕ) : SceneState :=
  animate^[n] (buildScene w)

/-- A child of the three.js `Scene`, tagged with the source variable
name it was bound to. -/
inductive ChildNode where
  | ambient (name : String) (l : AmbientLightNode)
  | directional (name : String) (l : DirectionalLightNode)
  | point (name : String) (l : PointLightNode)
  | mesh (name : String) (m : MeshNode)

/-- The source variable name of a scene child. -/
def ChildNode.name : ChildNode → String
  | .ambient n _ => n
  | .directional n _ => n
  | .point n _ => n
  | .mesh n _ => n

/-- Whether a scene child is a light source. -/
def ChildNode.isLight : ChildNode → Bool
  | .ambient _ _ => true
  | .directional _ _ => true
  | .point _ _ => true
  | .mesh _ _ => false

/-- The local position of a scene child (ambient lights have none). -/
def ChildNode.pos : ChildNode → Option Vec3
  | .ambient _ _ => none
  | .directional _ l => some l.position
  | .point _ l => some l.position
  | .mesh _ m => some m.position

/-- The scene-graph children, in the order of the `scene.add` calls in
the source. -/
def children (s : SceneState) : List ChildNode :=
  [ .ambient "ambientLight" s.ambientLight
  , .directional "mainLight" s.mainLight
  , .point "accentLight" s.accentLight
  , .point "rimLight" s.rimLight
  , .mesh "floor" s.floor
  , .mesh "backWall" s.backWall
  , .mesh "leftWall" s.leftWall
  , .mesh "rightWall" s.rightWall
  , .mesh "ceiling" s.ceiling
  , .mesh "cube" s.cube
  , .mesh "pedestal" s.pedestal
  , .mesh "accentSphere" s.accentSphere ]

/-- Position of the (first) scene child with the given source name. -/
def childPos (nm : String) (cs : List ChildNode) : Option Vec3 :=
  (cs.find? (fun c => c.name == nm)).bind ChildNode.pos

/-- The view-frustum parameters three.js derives from the camera fields
in `updateProjectionMatrix` (zoom 1, no view offset). -/
structure Projection where
  top : ℝ
  height : ℝ
  width : ℝ
  left : ℝ
  near : ℝ
  far : ℝ

/-- three.js `makePerspective` inputs as computed by
`PerspectiveCamera.updateProjectionMatrix`. -/
noncomputable def makePerspective (fov aspect near far : ℝ) : Projection :=
  let top := near * Real.tan (fov * Real.pi / 360)
  let height := 2 * top
  let width := aspect * height
  ⟨top, height, width, -(width / 2), near, far⟩

/-- The `PerspectiveCamera` fields this program reads or writes, plus
the projection parameters derived from them. -/
structure PerspectiveCamera where
  fov : ℝ
  aspect : ℝ
  near : ℝ
  far : ℝ
  position : Vec3
  projection : Projection

/-- `camera.updateProjectionMatrix()`: recompute the projection from the
current fov/aspect/near/far. -/
noncomputable def updateProjectionMatrix (c : PerspectiveCamera) : PerspectiveCamera :=
  { c with projection := makePerspective c.fov c.aspect c.near c.far }

/-- The renderer output size set by `renderer.setSize`. -/
structure Renderer where
  width : ℝ
  height : ℝ

/-- Camera, renderer and orbit-control state touched by startup and the
resize handler. -/
structure ViewState where
  camera : PerspectiveCamera
  renderer : Renderer
  controlsTarget : Vec3

/-- The camera built at startup (source lines 96–102):
`PerspectiveCamera(50, innerWidth/innerHeight, 0.1, 100)` at (8, 5, 10);
the three.js constructor ends with `updateProjectionMatrix()`. -/
noncomputable def buildCamera (w : Window) : PerspectiveCamera :=
  updateProjectionMatrix
    { fov := 50
      aspect := w.innerWidth / w.innerHeight
      near := 0.1
      far := 100
      position := ⟨8, 5, 10⟩
      projection := makePerspective 50 (w.innerWidth / w.innerHeight) 0.1 100 }

/-- The view state after startup: camera, `renderer.setSize(innerWidth,
innerHeight)` and `controls.target.set(0, 2, 0)`. -/
noncomputable def buildView (w : Window) : ViewState :=
  { camera := buildCamera w
    renderer := ⟨w.innerWidth, w.innerHeight⟩
    controlsTarget := ⟨0, 2, 0⟩ }

/-- The resize handler (source lines 346–350):
`camera.aspect = innerWidth / innerHeight`,
`camera.updateProjectionMatrix()`,
`renderer.setSize(innerWidth, innerHeight)`. -/
noncomputable def onResize (w : Window) (s : ViewState) : ViewState :=
  { s with
    camera := updateProjectionMatrix { s.camera with aspect := w.innerWidth / w.innerHeight }
    renderer := { s.renderer with width := w.innerWidth, height := w.innerHeight } }
lemma frames_zero (w : Window) : frames w 0 = buildScene w := rfl

lemma frames_succ (w : Window) (n : ℕ) :
    frames w (n + 1) = animate (frames w n) :=
  Function.iterate_succ_apply' animate n (buildScene w)

lemma animate_time (s : SceneState) : (animate s).time = s.time + 0.005 := rfl

lemma animate_cube_y (s : SceneState) :
    (animate s).cube.rotation.y = (animate s).time * 0.3 := rfl

lemma animate_cube_x (s : SceneState) :
    (animate s).cube.rotation.x = Real.sin ((animate s).time * 0.5) * 0.05 := rfl

lemma animate_sphere_y (s : SceneState) :
    (animate s).accentSphere.position.y
      = 0.4 + Real.sin ((animate s).time * 2) * 0.1 := rfl

lemma time_frames (w : Window) (n : ℕ) : (frames w n).time = 0.005 * n := by
  induction n with
  | zero => simp [frames, buildScene]
  | succ n ih =>
      rw [frames_succ, animate_time, ih]
      push_cast
      ring

lemma cube_y_frames (w : Window) (n : ℕ) :
    (frames w n).cube.rotation.y = (0.005 * n) * 0.3 := by
  cases n with
  | zero => simp [frames, buildScene]
  | succ n => rw [frames_succ, animate_cube_y, ← frames_succ, time_frames]

lemma cube_x_frames (w : Window) (n : ℕ) :
    (frames w n).cube.rotation.x = Real.sin ((0.005 * n) * 0.5) * 0.05 := by
  cases n with
  | zero => norm_num [frames, buildScene, Real.sin_zero]
  | succ n => rw [frames_succ, animate_cube_x, ← frames_succ, time_frames]

lemma sphere_y_frames (w : Window) (n : ℕ) :
    (frames w n).accentSphere.position.y
      = 0.4 + Real.sin ((0.005 * n) * 2) * 0.1 := by
  cases n with
  | zero => norm_num [frames, buildScene, Real.sin_zero]
  | succ n => rw [frames_succ, animate_sphere_y, ← frames_succ, time_frames]

/-- Claim C1: after n invocations of the frame updater starting from
time = 0, the time accumulator equals 0.005 * n, with no reset at any
point. -/
theorem claim_time_linear (w : Window) (n : ℕ) :
    (frames w n).time = 0.005 * n :=
  time_frames w n

/-- Claim C2: after n invocations of the frame updater, the primary
cube's y-axis rotation equals (0.005 * n) * 0.3 and its x-axis tilt
equals sin((0.005 * n) * 0.5) * 0.05. -/
theorem claim_cube_rotation (w : Window) (n : ℕ) :
    (frames w n).cube.rotation.y = (0.005 * n) * 0.3 ∧
    (frames w n).cube.rotation.x = Real.sin ((0.005 * n) * 0.5) * 0.05 :=
  ⟨cube_y_frames w n, cube_x_frames w n⟩

/-- Claim C3: after n invocations of the frame updater, the accent
sphere's vertical position equals 0.4 + sin((0.005 * n) * 2) * 0.1, and
this value always lies in [0.3, 0.5]. -/
theorem claim_sphere_hover (w : Window) (n : ℕ) :
    (frames w n).accentSphere.position.y
      = 0.4 + Real.sin ((0.005 * n) * 2) * 0.1 ∧
    0.3 ≤ (frames w n).accentSphere.position.y ∧
    (frames w n).accentSphere.position.y ≤ 0.5 := by
  have h := sphere_y_frames w n
  refine ⟨h, ?_, ?_⟩ <;> rw [h]
  · linarith [Real.neg_one_le_sin ((0.005 * (n : ℝ)) * 2)]
  · linarith [Real.sin_le_one ((0.005 * (n : ℝ)) * 2)]

/-- Claim C7: the time accumulator strictly increases on every
frame-updater invocation, and it grows without bound (never reset or
wrapped). -/
theorem claim_time_strict_mono_unbounded (w : Window) :
    (∀ n : ℕ, (frames w n).time < (frames w (n + 1)).time) ∧
    (∀ B : ℝ, ∃ n : ℕ, B < (frames w n).time) := by
  constructor
  · intro n
    rw [frames_succ, animate_time]
    linarith
  · intro B
    obtain ⟨n, hn⟩ := exists_nat_gt (B / 0.005)
    have h5 : (0 : ℝ) < 0.005 := by norm_num
    have hB : B < n * 0.005 := (div_lt_iff₀ h5).mp hn
    refine ⟨n, ?_⟩
    rw [time_frames]
    linarith
/-- Claim C8: each frame-updater invocation mutates only the time
accumulator, the cube's x/y rotation and the accent sphere's vertical
position; every other attribute of every scene-graph node created at
startup, and the node set itself, is unchanged. -/
theorem claim_animate_frame_effect (s : SceneState) :
    (animate s).time = s.time + 0.005 ∧
    (animate s).cube.rotation.y = (s.time + 0.005) * 0.3 ∧
    (animate s).cube.rotation.x = Real.sin ((s.time + 0.005) * 0.5) * 0.05 ∧
    (animate s).accentSphere.position.y
      = 0.4 + Real.sin ((s.time + 0.005) * 2) * 0.1 ∧
    (animate s).background = s.background ∧
    (animate s).fog = s.fog ∧
    (animate s).ambientLight = s.ambientLight ∧
    (animate s).mainLight = s.mainLight ∧
    (animate s).accentLight = s.accentLight ∧
    (animate s).rimLight = s.rimLight ∧
    (animate s).floor = s.floor ∧
    (animate s).backWall = s.backWall ∧
    (animate s).leftWall = s.leftWall ∧
    (animate s).rightWall = s.rightWall ∧
    (animate s).ceiling = s.ceiling ∧
    (animate s).pedestal = s.pedestal ∧
    (animate s).cube.position = s.cube.position ∧
    (animate s).cube.rotation.z = s.cube.rotation.z ∧
    (animate s).cube.geometry = s.cube.geometry ∧
    (animate s).cube.material = s.cube.material ∧
    (animate s).cube.castShadow = s.cube.castShadow ∧
    (animate s).cube.receiveShadow = s.cube.receiveShadow ∧
    (animate s).accentSphere.position.x = s.accentSphere.position.x ∧
    (animate s).accentSphere.position.z = s.accentSphere.position.z ∧
    (animate s).accentSphere.rotation = s.accentSphere.rotation ∧
    (animate s).accentSphere.geometry = s.accentSphere.geometry ∧
    (animate s).accentSphere.material = s.accentSphere.material ∧
    (animate s).accentSphere.castShadow = s.accentSphere.castShadow ∧
    (animate s).accentSphere.receiveShadow = s.accentSphere.receiveShadow ∧
    (children (animate s)).map ChildNode.name = (children s).map ChildNode.name :=
  ⟨rfl, rfl, rfl, rfl, rfl, rfl, rfl, rfl, rfl, rfl, rfl, rfl, rfl, rfl, rfl,
   rfl, rfl, rfl, rfl, rfl, rfl, rfl, rfl, rfl, rfl, rfl, rfl, rfl, rfl, rfl⟩

/-- Claim C4: the resize handler is idempotent — running it twice with
the same window dimensions gives exactly the state of running it
once. -/
theorem claim_resize_idempotent (w : Window) (s : ViewState) :
    onResize w (onResize w s) = onResize w s := rfl

/-- Claim C5: after the resize handler runs, the camera aspect ratio
equals width / height; in particular 1024 / 768 for a 1024×768
window. -/
theorem claim_resize_aspect :
    (∀ (w : Window) (s : ViewState),
        (onResize w s).camera.aspect = w.innerWidth / w.innerHeight) ∧
    (∀ s : ViewState,
        (onResize ⟨1024, 768⟩ s).camera.aspect = 1024 / 768) :=
  ⟨fun _ _ => rfl, fun _ => rfl⟩

/-- Claim C10: the resize handler leaves the camera position, fov, near
and far planes and the orbit-control target unchanged; only the aspect
ratio, the projection derived from it, and the renderer size change. -/
theorem claim_resize_preserves_rest (w : Window) (s : ViewState) :
    (onResize w s).camera.position = s.camera.position ∧
    (onResize w s).camera.fov = s.camera.fov ∧
    (onResize w s).camera.near = s.camera.near ∧
    (onResize w s).camera.far = s.camera.far ∧
    (onResize w s).controlsTarget = s.controlsTarget :=
  ⟨rfl, rfl, rfl, rfl, rfl⟩

/-- Claim C9: the scene builder is deterministic — it reads no runtime
input, so any two startup runs build identical scene graphs. -/
theorem claim_builder_deterministic (w₁ w₂ : Window) :
    buildScene w₁ = buildScene w₂ ∧
    children (buildScene w₁) = children (buildScene w₂) :=
  ⟨rfl, rfl⟩

/-- Claim C6: at startup the scene graph holds exactly one ground
plane, one primary cube, one pedestal and one accent sphere, and at
least three light sources, each at its fixed initial position. -/
theorem claim_startup_inventory (w : Window) :
    (children (buildScene w)).countP (fun c => c.name == "floor") = 1 ∧
    (children (buildScene w)).countP (fun c => c.name == "cube") = 1 ∧
    (children (buildScene w)).countP (fun c => c.name == "pedestal") = 1 ∧
    (children (buildScene w)).countP (fun c => c.name == "accentSphere") = 1 ∧
    3 ≤ (children (buildScene w)).countP ChildNode.isLight ∧
    childPos "floor" (children (buildScene w)) = some ⟨0, 0, 0⟩ ∧
    childPos "cube" (children (buildScene w)) = some ⟨0, 1.1, 0⟩ ∧
    childPos "pedestal" (children (buildScene w)) = some ⟨0, 0.15, 0⟩ ∧
    childPos "accentSphere" (children (buildScene w)) = some ⟨-5, 0.4, -4⟩ ∧
    childPos "mainLight" (children (buildScene w)) = some ⟨8, 12, 6⟩ ∧
    childPos "accentLight" (children (buildScene w)) = some ⟨-4, 3, -6⟩ ∧
    childPos "rimLight" (children (buildScene w)) = some ⟨6, 2, 8⟩ :=
  ⟨rfl, rfl, rfl, rfl,
   by rw [show List.countP ChildNode.isLight (children (buildScene w)) = 4 from rfl]; norm_num,
   rfl, rfl, rfl, rfl, rfl, rfl, rfl⟩
